import Mathlib

/-!
Formal model of the command shell in src/main.c: the quote-aware tokenizer
(parse_command), the redirection extractor in main, the PATH resolver
(find_executable), the builtin dispatcher (execute_builtin), the pipeline
splitter in main, and the pipeline process orchestrator (execute_pipeline).
External effects (fork, open, chdir, access, filesystem contents) are
parameters: oracle functions describe their outcomes, and the model records
the control flow the C code takes for those outcomes.
-/

/-- The single-quote character (ASCII 39), written via its code point. -/
def squoteChar : Char := Char.ofNat 39

/-- The backtick character (ASCII 96), written via its code point. -/
def btickChar : Char := Char.ofNat 96

/-- The characters a backslash escapes inside double quotes in
parse_command (src/main.c line 285): double quote, backslash, dollar,
backtick, newline. -/
def isDqEscapable (c : Char) : Prop :=
  c = '"' ∨ c = '\\' ∨ c = '$' ∨ c = btickChar ∨ c = '\n'

instance (c : Char) : Decidable (isDqEscapable c) := by
  unfold isDqEscapable; infer_instance

/-- The main scanning loop of parse_command (src/main.c lines 269 to 323).
State: remaining input, in_single_quote, in_double_quote, current_arg
buffer, arguments emitted so far.  The C loop also stops once argc reaches
MAX_ARGS - 1 = 63; that guard is checked before each character, as in the
loop condition.  Two faithful simplifications, both noted where they occur:
the C code skips runs of spaces and tabs with an inner while loop (line
316), which is equivalent to processing each separator character on its own
iteration because a separator seen with an empty current_arg emits nothing;
and inside double quotes a backslash before a non-escapable character
pushes the backslash and then copies that character on the next iteration
(it can be neither an escape nor a closing quote), which the corresponding
equation fuses into one step. -/
def parseLoop : List Char → Bool → Bool → List Char → List String →
    Bool × Bool × List Char × List String
  | [], inS, inD, cur, args => (inS, inD, cur, args)
  | ch :: rest, inS, inD, cur, args =>
    if 63 ≤ args.length then (inS, inD, cur, args)
    else if inS then
      if ch = squoteChar then parseLoop rest false inD cur args
      else parseLoop rest inS inD (cur ++ [ch]) args
    else if inD then
      if ch = '"' then parseLoop rest inS false cur args
      else if ch = '\\' then
        match rest with
        | [] => (inS, inD, cur ++ [ch], args)
        | next :: rest2 =>
          if isDqEscapable next then parseLoop rest2 inS inD (cur ++ [next]) args
          else parseLoop rest2 inS inD (cur ++ [ch, next]) args
      else parseLoop rest inS inD (cur ++ [ch]) args
    else
      if ch = squoteChar then parseLoop rest true inD cur args
      else if ch = '"' then parseLoop rest inS true cur args
      else if ch = '\\' then
        match rest with
        | [] => (inS, inD, cur, args)
        | next :: rest2 => parseLoop rest2 inS inD (cur ++ [next]) args
      else if ch = ' ' ∨ ch = '\t' then
        parseLoop rest inS inD []
          (if 0 < cur.length then args ++ [String.mk cur] else args)
      else parseLoop rest inS inD (cur ++ [ch]) args

/-- parse_command (src/main.c lines 261 to 356): tokenize an input line.
Returns none when the line ends inside an unclosed single or double quote
(the C function reports the error and returns -1), otherwise the argument
list.  The final flush of current_arg (lines 326 to 333) happens before
the unclosed-quote checks, exactly as in the source; on the error path the
flushed argument is discarded along with the rest. -/
def parse_command (input : String) : Option (List String) :=
  match parseLoop input.data false false [] [] with
  | (inS, inD, cur, args) =>
    let args2 := if 0 < cur.length then args ++ [String.mk cur] else args
    if inS then none
    else if inD then none
    else some args2

/-- The six redirection operator tokens recognized by the scan in main
(src/main.c lines 900 to 999). -/
def isRedirOp (t : String) : Bool :=
  decide (t = ">" ∨ t = "1>" ∨ t = ">>" ∨ t = "1>>" ∨ t = "2>" ∨ t = "2>>")

/-- Result of the redirection scan in main.  rejected models the error
branches that print a missing-file message and continue the loop without
executing anything.  ok carries the truncated argv followed by the four
file variables of main in declaration order: redirect_file,
redirect_stderr_file, append_file, append_stderr_file. -/
inductive RedirResult where
  | rejected : RedirResult
  | ok : List String → Option String → Option String → Option String →
      Option String → RedirResult
deriving DecidableEq

/-- The redirection scan of main (src/main.c lines 900 to 999): walk argv
left to right; at the first operator token, require a following filename
(the C test i + 1 < argc), record it in the variable for that operator,
truncate argv to the tokens before the operator (argv[i] = NULL, argc = i),
and break out of the loop.  Everything after the filename is dropped with
the truncation; later operators are never examined.  acc accumulates the
tokens already scanned, which are exactly the surviving argv. -/
def scanRedir : List String → List String → RedirResult
  | acc, [] => .ok acc none none none none
  | acc, tok :: rest =>
    if tok = ">" ∨ tok = "1>" then
      match rest with
      | f :: _ => .ok acc (some f) none none none
      | [] => .rejected
    else if tok = ">>" ∨ tok = "1>>" then
      match rest with
      | f :: _ => .ok acc none none (some f) none
      | [] => .rejected
    else if tok = "2>" then
      match rest with
      | f :: _ => .ok acc none (some f) none none
      | [] => .rejected
    else if tok = "2>>" then
      match rest with
      | f :: _ => .ok acc none none none (some f)
      | [] => .rejected
    else scanRedir (acc ++ [tok]) rest

/-- Redirection extraction for a single (non-piped) command, applied to
the full tokenized argv. -/
def extract_redirections (argv : List String) : RedirResult :=
  scanRedir [] argv

/-- The builtin name table (src/main.c line 19). -/
def builtin_cmd : List String := ["exit", "echo", "type", "pwd", "cd", "history"]

/-- is_builtin (src/main.c lines 370 to 377). -/
def is_builtin (command : String) : Bool :=
  builtin_cmd.contains command

/-- What main does with a single command after tokenization.
undefinedBehavior marks the paths on which control reaches the dispatch
at src/main.c line 1002 with argv[0] == NULL, where is_builtin calls
strcmp on NULL: undefined behavior in the source.  That happens on every
missing-redirect-target error branch — the continue there (lines 922,
946, 972, 995) binds to the inner for loop, not the outer while, and
since the branch only fires at the last index the scan just ends and
execution falls through with argv already freed (free_argv nulls every
entry, line 364) and input already freed (the free at line 1025 would be
a double free) — and also when extraction leaves argv empty (a leading
operator token, argc truncated to 0).  The other constructors are the
two real dispatch branches (lines 1002 to 1006). -/
inductive DispatchAction where
  | undefinedBehavior : DispatchAction
  | runBuiltin : List String → Option String → Option String →
      Option String → Option String → DispatchAction
  | runExternal : List String → Option String → Option String →
      Option String → Option String → DispatchAction
deriving DecidableEq

/-- Dispatch decision of main for a single command (src/main.c lines 900
to 1006).  The missing-redirect-target branches print their error and
free argv and input but do not skip the dispatch: their continue targets
the redirection for loop, which then terminates, and line 1002 runs
strcmp(NULL, ...) on the freed argv — modelled as undefinedBehavior, as
is the empty-argv-after-extraction case, which reaches the same NULL
dereference.  On the successful extraction paths with a nonempty argv
the command is dispatched on argv[0] to the builtin or external branch. -/
def single_command_dispatch (argv : List String) : DispatchAction :=
  match extract_redirections argv with
  | .rejected => .undefinedBehavior
  | .ok [] _ _ _ _ => .undefinedBehavior
  | .ok (a0 :: rest) rf rs af as_ =>
    if is_builtin a0 then .runBuiltin (a0 :: rest) rf rs af as_
    else .runExternal (a0 :: rest) rf rs af as_

/-- Which of the four redirection variables an operator token sets, paired
with the filename, in the order redirect_file, redirect_stderr_file,
append_file, append_stderr_file. -/
def opTargets (op f : String) :
    Option String × Option String × Option String × Option String :=
  if op = ">" ∨ op = "1>" then (some f, none, none, none)
  else if op = ">>" ∨ op = "1>>" then (none, none, some f, none)
  else if op = "2>" then (none, some f, none, none)
  else if op = "2>>" then (none, none, none, some f)
  else (none, none, none, none)

/-- Number of redirection slots that are set. -/
def someCount (a b c d : Option String) : Nat :=
  (if a.isSome then 1 else 0) + (if b.isSome then 1 else 0) +
    (if c.isSome then 1 else 0) + (if d.isSome then 1 else 0)

/-- Truncation of a C string copied into a fixed buffer of MAX_CMD_LEN =
1024 bytes: strncpy with size - 1 and a forced terminator, and snprintf
with sizeof, both keep at most the first 1023 characters. -/
def truncCStr (n : Nat) (s : String) : String := String.mk (s.data.take n)

/-- Raw split of a character list on a delimiter, keeping empty pieces. -/
def splitCharsAux (d : Char) : List Char → List Char → List (List Char)
  | [], cur => [cur]
  | c :: rest, cur =>
    if c = d then cur :: splitCharsAux d rest []
    else splitCharsAux d rest (cur ++ [c])

/-- strtok / strtok_r splitting on a single delimiter character: maximal
runs of non-delimiter characters; runs of delimiters, including leading
and trailing ones, produce no token (empty pieces are dropped). -/
def strtok_split (s : String) (d : Char) : List String :=
  ((splitCharsAux d s.data []).filter (fun cs => !cs.isEmpty)).map String.mk

/-- The candidate path built by find_executable (src/main.c line 242):
snprintf of dir, a slash, and the command, truncated to 1023 characters. -/
def fullPath (dir command : String) : String :=
  truncCStr 1023 (dir ++ "/" ++ command)

/-- The directory loop of find_executable: for each PATH directory in
order, test the candidate with access(full_path, X_OK) — the access_X
oracle — and return the first candidate that passes; a candidate that
fails the test is skipped and the scan continues. -/
def find_in_dirs (access_X : String → Bool) (command : String) :
    List String → Option String
  | [] => none
  | d :: ds =>
    if access_X (fullPath d command) then some (fullPath d command)
    else find_in_dirs access_X command ds

/-- The PATH directory list find_executable iterates over: the PATH value
is copied into a 1024-byte buffer (strncpy truncation to 1023 characters,
src/main.c lines 233 to 235) and cut by strtok on the colon. -/
def dirsOf : Option String → List String
  | none => []
  | some p => strtok_split (truncCStr 1023 p) ':'

/-- find_executable (src/main.c lines 228 to 258).  pathEnv is the value
of getenv(PATH), access_X the outcome of access(path, X_OK).  Returns the
full path of the first match in PATH order, or none when PATH is unset or
no directory yields an executable candidate. -/
def find_executable (pathEnv : Option String) (access_X : String → Bool)
    (command : String) : Option String :=
  match pathEnv with
  | none => none
  | some p => find_in_dirs access_X command (strtok_split (truncCStr 1023 p) ':')

/-- Oracle environment for the effectful calls the builtins and the
orchestrator make.  Each field records what the corresponding system or
library call would return. -/
structure ShellEnv where
  pathEnv : Option String
  access_X : String → Bool
  cwd : Option String
  home : Option String
  chdirOk : String → Bool
  readHistOk : String → Bool
  writeHistOk : String → Bool
  appendHistOk : String → Bool
  historyLength : Nat
  lastAppendedCount : Nat

/-- The whitespace class of C isspace, used by atoi. -/
def c_isspace (c : Char) : Bool :=
  c = ' ' || c = '\t' || c = '\n' || c = '\r' ||
    c = Char.ofNat 11 || c = Char.ofNat 12

/-- Accumulate leading decimal digits, stopping at the first non-digit. -/
def digitsVal : List Char → Nat → Nat
  | [], acc => acc
  | c :: cs, acc =>
    if c.isDigit then digitsVal cs (acc * 10 + (c.toNat - 48)) else acc

/-- C atoi as used by exit and history: skip leading whitespace, an
optional sign, then leading digits; anything non-numeric yields 0.
(Overflow of the C int is not modelled; no claim depends on it.) -/
def c_atoi (s : String) : Int :=
  match s.data.dropWhile c_isspace with
  | '-' :: rest => - (digitsVal rest 0 : Int)
  | '+' :: rest => (digitsVal rest 0 : Int)
  | cs => (digitsVal cs 0 : Int)

/-- How a call to execute_builtin ends: exited models the exit builtin
calling exit(code) and terminating the whole process; returned carries the
value of the result variable for every other path. -/
inductive BuiltinOutcome where
  | exited : Int → BuiltinOutcome
  | returned : Nat → BuiltinOutcome
deriving DecidableEq

/-- The builtin bodies of execute_builtin (src/main.c lines 415 to 563),
reduced to the value of the result variable (the printed output is not
modelled; the oracles in env stand for getcwd, chdir, getenv and the
readline history calls).  A non-builtin name falls through every strcmp
branch and returns the initial result 0, as in the source. -/
def execute_builtin_result (env : ShellEnv) (argv : List String) :
    BuiltinOutcome :=
  match argv with
  | [] => .returned 0
  | cmd :: rest =>
    if cmd = "exit" then
      match rest with
      | a :: _ => .exited (c_atoi a)
      | [] => .exited 0
    else if cmd = "echo" then .returned 0
    else if cmd = "type" then
      match rest with
      | [] => .returned 1
      | _ :: _ => .returned 0
    else if cmd = "pwd" then
      match env.cwd with
      | some _ => .returned 0
      | none => .returned 1
    else if cmd = "cd" then
      match (if rest.head? = none ∨ rest.head? = some "~" then env.home
             else rest.head?) with
      | none => .returned 1
      | some t => .returned (if env.chdirOk t then 0 else 1)
    else if cmd = "history" then
      match rest with
      | "-r" :: rest2 =>
        match rest2 with
        | [] => .returned 1
        | f :: _ => .returned (if env.readHistOk f then 0 else 1)
      | "-w" :: rest2 =>
        match rest2 with
        | [] => .returned 1
        | f :: _ => .returned (if env.writeHistOk f then 0 else 1)
      | "-a" :: rest2 =>
        match rest2 with
        | [] => .returned 1
        | f :: _ =>
          if 0 < env.historyLength - env.lastAppendedCount then
            .returned (if env.appendHistOk f then 0 else 1)
          else .returned 0
      | _ :: _ => .returned 0
      | [] => .returned 0
    else .returned 0

/-- Abstract state of the two standard stream descriptors: the value says
which open file description each one currently designates. -/
structure FdState where
  stdout : Nat
  stderr : Nat
deriving DecidableEq

/-- apply_redirection (src/main.c lines 42 to 58) for one slot: a NULL
filename is a no-op success; otherwise openRes gives the description the
file opens onto, or none when open (or the subsequent dup2) fails and the
function returns -1 leaving the stream untouched. -/
def applyStep (openRes : String → Option Nat) (f : Option String)
    (cur : Nat) : Option Nat :=
  match f with
  | none => some cur
  | some fn =>
    match openRes fn with
    | none => none
    | some v => some v

/-- Everything observable about one call to execute_builtin: the outcome,
the final stream descriptors, and whether each restore dup2 at src/main.c
lines 564 to 574 actually executed. -/
structure BuiltinRun where
  outcome : BuiltinOutcome
  finalStdout : Nat
  finalStderr : Nat
  restoredStdout : Bool
  restoredStderr : Bool
deriving DecidableEq

/-- execute_builtin (src/main.c lines 380 to 577).  Parameter order after
argv follows the C signature: redirect_file, redirect_stderr_file,
append_file, append_stderr_file.  The original descriptors are saved by
dup before redirecting (lines 386 to 392); the four apply_redirection
calls run in source order (lines 395 to 398) and any failure returns 1
immediately, before the builtin body and before the restore code; the
restore dup2 calls run only on the path that falls through to lines 564
to 574, and only for streams that were saved; the exit builtin terminates
the process inside the body, so nothing after it runs. -/
def execute_builtin (env : ShellEnv) (openRes : String → Option Nat)
    (argv : List String) (redirect_file redirect_stderr_file append_file
    append_stderr_file : Option String) (st : FdState) : BuiltinRun :=
  let savedOut : Option Nat :=
    if redirect_file.isSome || append_file.isSome then some st.stdout else none
  let savedErr : Option Nat :=
    if redirect_stderr_file.isSome || append_stderr_file.isSome then
      some st.stderr else none
  match applyStep openRes redirect_file st.stdout with
  | none => ⟨.returned 1, st.stdout, st.stderr, false, false⟩
  | some o1 =>
    match applyStep openRes append_file o1 with
    | none => ⟨.returned 1, o1, st.stderr, false, false⟩
    | some o2 =>
      match applyStep openRes redirect_stderr_file st.stderr with
      | none => ⟨.returned 1, o2, st.stderr, false, false⟩
      | some e1 =>
        match applyStep openRes append_stderr_file e1 with
        | none => ⟨.returned 1, o2, e1, false, false⟩
        | some e2 =>
          match execute_builtin_result env argv with
          | .exited c => ⟨.exited c, o2, e2, false, false⟩
          | .returned r =>
            ⟨.returned r,
             (match savedOut with | some v => v | none => o2),
             (match savedErr with | some v => v | none => e2),
             savedOut.isSome, savedErr.isSome⟩

/-- How a pipeline child ends: exited is an exit(code) in the child,
replaced is a successful execve that replaces the process image. -/
inductive ChildExit where
  | exited : Int → ChildExit
  | replaced : String → ChildExit
deriving DecidableEq

/-- The child branch of execute_pipeline for one stage (src/main.c lines
737 to 753), after the pipe wiring: a builtin runs in process via
execute_builtin with all four redirection arguments NULL and the child
then calls exit(0) whatever the builtin returned; otherwise the command
is resolved, an unresolved name exits 1, execve replaces the image on
success (execOk oracle) and the child exits 1 when execve fails. -/
def pipeline_child_run (env : ShellEnv) (openRes : String → Option Nat)
    (execOk : String → Bool) (argv : List String) (st : FdState) : ChildExit :=
  let cmd := argv.headD ""
  if is_builtin cmd then
    match (execute_builtin env openRes argv none none none none st).outcome with
    | .exited c => .exited c
    | .returned _ => .exited 0
  else
    match find_executable env.pathEnv env.access_X cmd with
    | none => .exited 1
    | some p => if execOk p then .replaced p else .exited 1

/-- The fork loop of execute_pipeline (src/main.c lines 711 to 755):
stages are forked in order starting at index i with the given number of
stages left; returns the stage indices that were forked and whether the
loop completed (false when some fork failed and the function returned
early). -/
def forkLoopGo (forkOk : Nat → Bool) : Nat → Nat → List Nat × Bool
  | _, 0 => ([], true)
  | i, Nat.succ k =>
    if forkOk i then
      match forkLoopGo forkOk (i + 1) k with
      | (rest, ok) => (i :: rest, ok)
    else ([], false)

/-- Parent-side accounting of one execute_pipeline call: which stage
indices were forked, which were waited on, and the status the function
hands back to its caller. -/
structure PipeTrace where
  spawned : List Nat
  waited : List Nat
  reported : Option Int

/-- execute_pipeline, parent side (src/main.c lines 698 to 767).  status
gives the exit status each stage would exit with; the definition never
consults it because the C function is void and waits with
waitpid(pids[i], NULL, 0): every collected status is discarded.  When a
fork fails the function returns at line 716, before the wait loop, so
nothing is waited on; when all forks succeed the wait loop covers every
forked pid.  (The pipe creation failure path at lines 704 to 707 is not
modelled; no claim depends on it.) -/
def execute_pipeline_trace (forkOk : Nat → Bool) (status : Nat → Int)
    (num_commands : Nat) : PipeTrace :=
  match forkLoopGo forkOk 0 num_commands with
  | (spawned, true) => { spawned := spawned, waited := spawned, reported := none }
  | (spawned, false) => { spawned := spawned, waited := [], reported := none }

/-- Number of pipe bytes in the raw input line (src/main.c lines 798 to
803). -/
def pipe_count (s : String) : Nat :=
  s.data.countP (fun c => c == '|')

/-- The per-segment tokenization loop of main (src/main.c lines 834 to
862): each segment string is parsed with parse_command and a result of
argc <= 0 — an unclosed quote or an empty token list — fails the whole
pipeline. -/
def parse_segments : List String → Option (List (List String))
  | [] => some []
  | seg :: rest =>
    match parse_command seg, parse_segments rest with
    | some (a :: args), some cs => some ((a :: args) :: cs)
    | _, _ => none

/-- Outcome of the pipeline branch of main for a raw line containing at
least one pipe byte.  uninitializedRead marks the inputs on which strtok_r
returns fewer tokens than pipe_count + 1 (adjacent, leading or trailing
pipes): the C loop at lines 825 to 829 then leaves the tail of
cmd_strings unset and the parse loop at line 850 reads uninitialized
memory — undefined behavior in the source, recorded here as its own
outcome. -/
inductive PipelineParse where
  | tooMany : PipelineParse
  | uninitializedRead : PipelineParse
  | parseFailure : PipelineParse
  | ok : List (List String) → PipelineParse
deriving DecidableEq

/-- The pipeline branch of main (src/main.c lines 807 to 881): reject
more than MAX_PIPELINE_CMDS = 32 stages before splitting anything, split
the raw line on every pipe byte with strtok_r, then tokenize each
segment, aborting the pipeline when a segment fails to parse.  ok carries
the argv of every stage, in order, as handed to execute_pipeline. -/
def pipeline_parse (input : String) : PipelineParse :=
  if 32 < pipe_count input + 1 then .tooMany
  else if (strtok_split input '|').length < pipe_count input + 1 then
    .uninitializedRead
  else
    match parse_segments (strtok_split input '|') with
    | some cmds => .ok cmds
    | none => .parseFailure

/-- A concrete oracle environment in which every effectful call fails or
is absent; used to instantiate theorems on closed inputs. -/
def env0 : ShellEnv where
  pathEnv := none
  access_X := fun _ => false
  cwd := none
  home := none
  chdirOk := fun _ => false
  readHistOk := fun _ => false
  writeHistOk := fun _ => false
  appendHistOk := fun _ => false
  historyLength := 0
  lastAppendedCount := 0

/-- Prepending tokens that are not redirection operators only moves them
into the surviving argv: the scan continues past them unchanged. -/
theorem scanRedir_skips_clean :
    ∀ (pre : List String), (∀ t ∈ pre, isRedirOp t = false) →
      ∀ acc l, scanRedir acc (pre ++ l) = scanRedir (acc ++ pre) l := by
  intro pre
  induction pre with
  | nil => intro _ acc l; simp
  | cons t ts ih =>
    intro h acc l
    have hP := of_decide_eq_false (h t (by simp) : isRedirOp t = false)
    simp only [List.cons_append, scanRedir, List.append_eq]
    rw [if_neg (fun hc => hP (by tauto)), if_neg (fun hc => hP (by tauto)),
      if_neg (fun hc => hP (by tauto)), if_neg (fun hc => hP (by tauto))]
    rw [ih (fun x hx => h x (by simp [hx])) (acc ++ [t]) l]
    simp

/-- A stdout truncation operator with a following token sets
redirect_file and stops the scan. -/
theorem scanRedir_op_stdout_trunc (acc : List String) (op f : String)
    (rest : List String) (h : op = ">" ∨ op = "1>") :
    scanRedir acc (op :: f :: rest) = .ok acc (some f) none none none := by
  simp only [scanRedir, if_pos h]

/-- A stdout append operator with a following token sets append_file and
stops the scan. -/
theorem scanRedir_op_stdout_append (acc : List String) (op f : String)
    (rest : List String) (h : op = ">>" ∨ op = "1>>") :
    scanRedir acc (op :: f :: rest) = .ok acc none none (some f) none := by
  have h1 : ¬ (op = ">" ∨ op = "1>") := by
    rcases h with h | h <;> subst h <;> decide
  simp only [scanRedir, if_neg h1, if_pos h]

/-- The stderr truncation operator with a following token sets
redirect_stderr_file and stops the scan. -/
theorem scanRedir_op_stderr_trunc (acc : List String) (f : String)
    (rest : List String) :
    scanRedir acc ("2>" :: f :: rest) = .ok acc none (some f) none none := by
  simp only [scanRedir, if_neg (by decide : ¬ ("2>" = ">" ∨ "2>" = "1>")),
    if_neg (by decide : ¬ ("2>" = ">>" ∨ "2>" = "1>>")), if_pos rfl]
  simp

/-- The stderr append operator with a following token sets
append_stderr_file and stops the scan. -/
theorem scanRedir_op_stderr_append (acc : List String) (f : String)
    (rest : List String) :
    scanRedir acc ("2>>" :: f :: rest) = .ok acc none none none (some f) := by
  simp only [scanRedir, if_neg (by decide : ¬ ("2>>" = ">" ∨ "2>>" = "1>")),
    if_neg (by decide : ¬ ("2>>" = ">>" ∨ "2>>" = "1>>")),
    if_neg (by decide : ¬ ("2>>" = "2>")), if_pos rfl]
  simp

/-- With all four redirection arguments NULL, execute_builtin performs no
saving and no redirecting and its outcome is exactly the outcome of the
builtin body. -/
theorem execute_builtin_outcome_noredirs (env : ShellEnv)
    (openRes : String → Option Nat) (argv : List String) (st : FdState) :
    (execute_builtin env openRes argv none none none none st).outcome =
      execute_builtin_result env argv := by
  cases h : execute_builtin_result env argv <;>
    simp [execute_builtin, applyStep, h]

/-- The first directory in the scan order whose candidate passes the
access test is the one find_in_dirs returns. -/
theorem find_in_dirs_first_match (access_X : String → Bool) (command : String) :
    ∀ (l : List String) (d : String) (r : List String),
      (∀ d2 ∈ l, access_X (fullPath d2 command) = false) →
      access_X (fullPath d command) = true →
      find_in_dirs access_X command (l ++ d :: r) = some (fullPath d command) := by
  intro l
  induction l with
  | nil => intro d r _ hd; simp [find_in_dirs, hd]
  | cons x xs ih =>
    intro d r hl hd
    have hx : access_X (fullPath x command) = false := hl x (by simp)
    simp only [List.cons_append, find_in_dirs, hx]
    simp only [Bool.false_eq_true, if_false]
    exact ih d r (fun d2 h2 => hl d2 (by simp [h2])) hd

/-- Anything find_in_dirs returns passed the access test. -/
theorem find_in_dirs_access (access_X : String → Bool) (command : String) :
    ∀ (dirs : List String) (s : String),
      find_in_dirs access_X command dirs = some s → access_X s = true := by
  intro dirs
  induction dirs with
  | nil => intro s h; simp [find_in_dirs] at h
  | cons d ds ih =>
    intro s h
    by_cases hd : access_X (fullPath d command) = true
    · simp [find_in_dirs, hd] at h
      rw [← h]; exact hd
    · simp [find_in_dirs, hd] at h
      exact ih s h

/-- When no candidate passes the access test the scan returns none. -/
theorem find_in_dirs_none (access_X : String → Bool) (command : String) :
    ∀ (dirs : List String),
      (∀ d ∈ dirs, access_X (fullPath d command) = false) →
      find_in_dirs access_X command dirs = none := by
  intro dirs
  induction dirs with
  | nil => intro _; rfl
  | cons d ds ih =>
    intro h
    simp only [find_in_dirs, h d (by simp), Bool.false_eq_true, if_false]
    exact ih (fun x hx => h x (by simp [hx]))

/-- find_executable is the directory scan over the split of PATH. -/
theorem find_executable_eq_dirs (pathEnv : Option String)
    (access_X : String → Bool) (command : String) :
    find_executable pathEnv access_X command =
      find_in_dirs access_X command (dirsOf pathEnv) := by
  cases pathEnv <;> rfl

/-- C1: the tokenizer scans left to right honoring quoting.  First
conjunct: tokenizing the spec example line — echo, then a space and b
between single quotes, then c, an escaped double quote and d between
double quotes — yields exactly the three arguments echo, a-space-b, and
c-quote-d.  Remaining conjuncts, as single steps of the scan: inside
single quotes every character other than the closing quote is copied
literally; outside quotes a backslash copies the single following
character verbatim; inside double quotes a backslash before one of the
five escapable characters replaces the pair by that character, and before
any other character the backslash is copied literally together with that
character.  (Quote delimiters never reach the current argument buffer, as
the quote transitions in parseLoop show.) -/
theorem c1_tokenizer_quoting :
    (parse_command (String.mk ['e', 'c', 'h', 'o', ' ', squoteChar, 'a', ' ',
        'b', squoteChar, ' ', '"', 'c', '\\', '"', 'd', '"']) =
      some ["echo", "a b", "c\"d"])
    ∧ (∀ c rest inD cur args, args.length < 63 → c ≠ squoteChar →
        parseLoop (c :: rest) true inD cur args =
          parseLoop rest true inD (cur ++ [c]) args)
    ∧ (∀ c rest cur args, args.length < 63 →
        parseLoop ('\\' :: c :: rest) false false cur args =
          parseLoop rest false false (cur ++ [c]) args)
    ∧ (∀ c rest cur args, args.length < 63 → isDqEscapable c →
        parseLoop ('\\' :: c :: rest) false true cur args =
          parseLoop rest false true (cur ++ [c]) args)
    ∧ (∀ c rest cur args, args.length < 63 → ¬ isDqEscapable c →
        parseLoop ('\\' :: c :: rest) false true cur args =
          parseLoop rest false true (cur ++ ['\\', c]) args) := by
  refine ⟨by decide, ?_, ?_, ?_, ?_⟩
  · intro c rest inD cur args h1 h2
    rw [parseLoop.eq_def]
    simp [Nat.not_le.mpr h1, h2]
  · intro c rest cur args h1
    rw [parseLoop.eq_def]
    simp +decide [Nat.not_le.mpr h1, squoteChar]
  · intro c rest cur args h1 h2
    rw [parseLoop.eq_def]
    simp +decide [Nat.not_le.mpr h1, squoteChar, h2]
  · intro c rest cur args h1 h2
    rw [parseLoop.eq_def]
    simp +decide [Nat.not_le.mpr h1, squoteChar, h2]

/-- C1 witness: the step conjuncts of c1_tokenizer_quoting instantiated
on concrete characters and states. -/
theorem c1_tokenizer_quoting_witness :
    parseLoop ['a'] true false [] [] = parseLoop [] true false ['a'] []
    ∧ parseLoop ['\\', 'x'] false false [] [] =
        parseLoop [] false false ['x'] []
    ∧ parseLoop ['\\', '"'] false true [] [] =
        parseLoop [] false true ['"'] []
    ∧ parseLoop ['\\', 'x'] false true [] [] =
        parseLoop [] false true ['\\', 'x'] [] :=
  ⟨c1_tokenizer_quoting.2.1 'a' [] false [] [] (by decide) (by decide),
   c1_tokenizer_quoting.2.2.1 'x' [] [] [] (by decide),
   c1_tokenizer_quoting.2.2.2.1 '"' [] [] [] (by decide) (by decide),
   c1_tokenizer_quoting.2.2.2.2 'x' [] [] [] (by decide) (by decide)⟩

/-- C2 counterexample: a two-stage pipeline in which every fork succeeds
(both stages spawned) and the last stage would exit with status 7; the
claim says the overall status reported for the pipeline is 7, but
execute_pipeline is void and waits with a NULL status pointer, so it
reports no status at all. -/
theorem c2_pipeline_status_counterexample :
    (execute_pipeline_trace (fun _ => true) (fun i => if i = 1 then 7 else 0)
      2).spawned = [0, 1]
    ∧ ¬ (execute_pipeline_trace (fun _ => true)
        (fun i => if i = 1 then 7 else 0) 2).reported = some 7 := by
  decide

/-- C2 amended: for every pipeline, whatever the fork outcomes and the
stage statuses, execute_pipeline reports no status to its caller: the
function is void and the parent discards every exit status by passing
NULL to waitpid. -/
theorem c2_no_status_reported (forkOk : Nat → Bool) (status : Nat → Int)
    (n : Nat) :
    (execute_pipeline_trace forkOk status n).reported = none := by
  cases h : forkLoopGo forkOk 0 n with
  | mk sp ok => cases ok <;> simp [execute_pipeline_trace, h]

/-- C3: evaluation of the code at the failing inputs — each of the four
operator kinds as the sole trailing token of the command cmd.  The
missing-redirect-target branch fires (the extraction result is rejected)
and the error is printed, but execution is not skipped: the continue in
that branch binds to the redirection for loop, which then terminates, and
control reaches the dispatch at src/main.c line 1002 with argv freed and
argv[0] == NULL — strcmp on NULL, undefined behavior, followed by a
double free of input — where the claim (and the comment on the continue)
says no builtin runs and no process is spawned for that line. -/
theorem c3_missing_target_error_path :
    extract_redirections ["cmd", ">"] = RedirResult.rejected
    ∧ single_command_dispatch ["cmd", ">"] = DispatchAction.undefinedBehavior
    ∧ single_command_dispatch ["cmd", ">>"] = DispatchAction.undefinedBehavior
    ∧ single_command_dispatch ["cmd", "2>"] = DispatchAction.undefinedBehavior
    ∧ single_command_dispatch ["cmd", "2>>"] =
        DispatchAction.undefinedBehavior := by
  decide

/-- C4 counterexample: for the command cmd with stdout redirected first
to a and then to b, the claim says the later (rightmost) operator takes
effect, i.e. the stdout target is b; the code stops at the first operator,
so the target that takes effect is a. -/
theorem c4_duplicate_redirect_counterexample :
    extract_redirections ["cmd", ">", "a", ">", "b"] =
      RedirResult.ok ["cmd"] (some "a") none none none
    ∧ (some "a" : Option String) ≠ some "b" := by
  decide

/-- C4 amended: for every command whose argument vector consists of
operator-free tokens followed by a redirection operator, a filename and
anything further, exactly one redirection is extracted — the slot of that
first operator, targeting the token right after it (first-wins, not
last-wins) — and argv is truncated to the tokens before the operator, the
operator, its filename and every later token (including any later
redirection operators, which are never examined) being dropped. -/
theorem c4_first_redirect_wins (pre : List String) (op f : String)
    (rest : List String) (hpre : ∀ t ∈ pre, isRedirOp t = false)
    (hop : isRedirOp op = true) :
    extract_redirections (pre ++ op :: f :: rest) =
      RedirResult.ok pre (opTargets op f).1 (opTargets op f).2.1
        (opTargets op f).2.2.1 (opTargets op f).2.2.2
    ∧ someCount (opTargets op f).1 (opTargets op f).2.1
        (opTargets op f).2.2.1 (opTargets op f).2.2.2 = 1 := by
  constructor
  · unfold extract_redirections
    rw [scanRedir_skips_clean pre hpre [] (op :: f :: rest)]
    simp only [List.nil_append]
    rcases of_decide_eq_true hop with h | h | h | h | h | h <;> subst h
    · rw [scanRedir_op_stdout_trunc _ _ _ _ (Or.inl rfl)]
      simp +decide [opTargets]
    · rw [scanRedir_op_stdout_trunc _ _ _ _ (Or.inr rfl)]
      simp +decide [opTargets]
    · rw [scanRedir_op_stdout_append _ _ _ _ (Or.inl rfl)]
      simp +decide [opTargets]
    · rw [scanRedir_op_stdout_append _ _ _ _ (Or.inr rfl)]
      simp +decide [opTargets]
    · rw [scanRedir_op_stderr_trunc]
      simp +decide [opTargets]
    · rw [scanRedir_op_stderr_append]
      simp +decide [opTargets]
  · rcases of_decide_eq_true hop with h | h | h | h | h | h <;> subst h <;>
      simp +decide [opTargets, someCount]

/-- C4 witness: the amended extraction on the concrete command cmd with a
stderr truncation redirect to e followed by a stray token. -/
theorem c4_first_redirect_wins_witness :
    extract_redirections (["cmd"] ++ "2>" :: "e" :: ["x"]) =
      RedirResult.ok ["cmd"] (opTargets "2>" "e").1 (opTargets "2>" "e").2.1
        (opTargets "2>" "e").2.2.1 (opTargets "2>" "e").2.2.2
    ∧ someCount (opTargets "2>" "e").1 (opTargets "2>" "e").2.1
        (opTargets "2>" "e").2.2.1 (opTargets "2>" "e").2.2.2 = 1 :=
  c4_first_redirect_wins ["cmd"] "2>" "e" ["x"] (by decide) (by decide)

/-- C5: evaluation of the code at the failing input — a two-stage
pipeline where fork succeeds for stage 0 and fails for stage 1.  Stage 0
is spawned, but execute_pipeline returns at the fork-failure branch
before its wait loop, so the set of waited-on children is empty: the
already-spawned child is never waited on, contradicting the claim that no
zombie remains. -/
theorem c5_fork_failure_no_wait :
    (execute_pipeline_trace (fun i => i == 0) (fun _ => 0) 2).spawned = [0]
    ∧ (execute_pipeline_trace (fun i => i == 0) (fun _ => 0) 2).waited = [] := by
  decide

/-- C6 counterexample: the pipeline stage type with no argument.  The
builtin body returns result 1, yet the forked child running that stage
exits with status 0, because the child calls exit(0) regardless of what
execute_builtin returned; the claim says the child exits with the
builtin result 1. -/
theorem c6_builtin_stage_status_counterexample :
    execute_builtin_result env0 ["type"] = BuiltinOutcome.returned 1
    ∧ pipeline_child_run env0 (fun _ => none) (fun _ => false) ["type"]
        ⟨1, 2⟩ = ChildExit.exited 0
    ∧ ChildExit.exited 0 ≠ ChildExit.exited 1 := by
  decide

/-- C6 amended: for every pipeline stage whose command is a recognized
builtin and whose builtin body returns (every builtin except exit), the
builtin runs inside the forked child and the child terminates immediately
afterwards — it never falls back into the interactive loop — but always
with exit status 0, discarding the builtin result. -/
theorem c6_builtin_stage_exit_zero (env : ShellEnv)
    (openRes : String → Option Nat) (execOk : String → Bool)
    (argv : List String) (st : FdState) (r : Nat)
    (hb : is_builtin (argv.headD "") = true)
    (hr : execute_builtin_result env argv = BuiltinOutcome.returned r) :
    pipeline_child_run env openRes execOk argv st = ChildExit.exited 0 := by
  unfold pipeline_child_run
  rw [if_pos hb, execute_builtin_outcome_noredirs, hr]

/-- C6 witness: the amended statement on the concrete stage pwd in an
environment where getcwd fails, so the builtin body returns 1. -/
theorem c6_builtin_stage_exit_zero_witness :
    pipeline_child_run env0 (fun _ => none) (fun _ => true) ["pwd"] ⟨1, 2⟩ =
      ChildExit.exited 0 :=
  c6_builtin_stage_exit_zero env0 (fun _ => none) (fun _ => true) ["pwd"]
    ⟨1, 2⟩ 1 (by decide) (by decide)

/-- C7: evaluation of the code at the failing input a, pipe, pipe, b.
The line holds K = 2 pipe bytes, but strtok_r collapses the adjacent
pipes and yields only 2 segment strings, not K + 1 = 3; the parse loop
then runs over 3 slots and reads the uninitialized third entry of
cmd_strings — undefined behavior — instead of aborting on a zero-token
segment as the claim describes.  The last conjunct shows the abort path
the claim describes is only reached when the segment exists but holds no
tokens (a whitespace-only segment). -/
theorem c7_empty_segment_undefined :
    pipe_count "a||b" = 2
    ∧ strtok_split "a||b" '|' = ["a", "b"]
    ∧ pipeline_parse "a||b" = PipelineParse.uninitializedRead
    ∧ pipeline_parse "a | |b" = PipelineParse.parseFailure := by
  decide

/-- C8 counterexample: echo invoked as the sole command with stdout
redirected to a file that fails to open.  The claim says the dispatcher
restores the saved descriptors on every exit path including this one; in
the code the failure branch returns 1 before the restore dup2 calls run,
so no restore is executed (the descriptors are only unchanged because the
failed open never replaced them, and the saved duplicate leaks). -/
theorem c8_restore_counterexample :
    execute_builtin env0 (fun _ => none) ["echo", "hi"] (some "bad") none
        none none ⟨5, 7⟩ =
      ⟨BuiltinOutcome.returned 1, 5, 7, false, false⟩ := by
  decide

/-- C8 amended: for every builtin invocation as the sole command with any
redirection the extractor can actually produce (it sets at most one of
the four slots, by c4_first_redirect_wins), if execute_builtin returns —
every path except the exit builtin terminating the process — the shell
descriptors after the call equal the ones before it: on the normal path
the saved originals are restored after the builtin, and on the
open-failure path the call returns early without restoring, but the
failed open never replaced a descriptor in the first place. -/
theorem c8_fd_unchanged (env : ShellEnv) (openRes : String → Option Nat)
    (argv : List String) (rf rs af as_ : Option String) (st : FdState)
    (hone : someCount rf rs af as_ ≤ 1) (r : Nat)
    (hret : (execute_builtin env openRes argv rf rs af as_ st).outcome =
      BuiltinOutcome.returned r) :
    (execute_builtin env openRes argv rf rs af as_ st).finalStdout = st.stdout
    ∧ (execute_builtin env openRes argv rf rs af as_ st).finalStderr =
        st.stderr := by
  rcases rf with _ | f1
  · rcases rs with _ | f2
    · rcases af with _ | f3
      · rcases as_ with _ | f4
        · cases hb : execute_builtin_result env argv <;>
            simp [execute_builtin, applyStep, hb] at hret ⊢
        · cases ho : openRes f4
          · simp [execute_builtin, applyStep, ho]
          · cases hb : execute_builtin_result env argv <;>
              simp [execute_builtin, applyStep, ho, hb] at hret ⊢
      · rcases as_ with _ | f4
        · cases ho : openRes f3
          · simp [execute_builtin, applyStep, ho]
          · cases hb : execute_builtin_result env argv <;>
              simp [execute_builtin, applyStep, ho, hb] at hret ⊢
        · simp [someCount] at hone
    · rcases af with _ | f3
      · rcases as_ with _ | f4
        · cases ho : openRes f2
          · simp [execute_builtin, applyStep, ho]
          · cases hb : execute_builtin_result env argv <;>
              simp [execute_builtin, applyStep, ho, hb] at hret ⊢
        · simp [someCount] at hone
      · cases as_ <;> simp [someCount] at hone
  · rcases rs with _ | f2
    · rcases af with _ | f3
      · rcases as_ with _ | f4
        · cases ho : openRes f1
          · simp [execute_builtin, applyStep, ho]
          · cases hb : execute_builtin_result env argv <;>
              simp [execute_builtin, applyStep, ho, hb] at hret ⊢
        · simp [someCount] at hone
      · cases as_ <;> simp [someCount] at hone
    · cases af <;> cases as_ <;> simp [someCount] at hone

/-- C8 witness: the amended statement on echo redirected to a file whose
open fails: the call returns 1 and both descriptors keep their initial
values 3 and 4. -/
theorem c8_fd_unchanged_witness :
    (execute_builtin env0 (fun _ => none) ["echo"] (some "x") none none none
        ⟨3, 4⟩).finalStdout = 3
    ∧ (execute_builtin env0 (fun _ => none) ["echo"] (some "x") none none
        none ⟨3, 4⟩).finalStderr = 4 :=
  c8_fd_unchanged env0 (fun _ => none) ["echo"] (some "x") none none none
    ⟨3, 4⟩ (by decide) 1 (by decide)

/-- C9: the executable resolver is left-to-right first-match over PATH.
First conjunct: whenever the PATH directory list splits as l, d, r with no
candidate in l passing the access test and the candidate in d passing it,
the resolver returns the full path under d — the earliest matching
directory, never a later one.  Second: anything returned passed the
execute-permission test, so a candidate lacking it is never returned.
Third: a name whose candidate fails the test in every PATH directory
resolves to not found (none), which also covers an unset PATH. -/
theorem c9_find_executable_order (pathEnv : Option String)
    (access_X : String → Bool) (command : String) :
    (∀ (l : List String) (d : String) (r : List String),
        dirsOf pathEnv = l ++ d :: r →
        (∀ d2 ∈ l, access_X (fullPath d2 command) = false) →
        access_X (fullPath d command) = true →
        find_executable pathEnv access_X command = some (fullPath d command))
    ∧ (∀ s, find_executable pathEnv access_X command = some s →
        access_X s = true)
    ∧ ((∀ d ∈ dirsOf pathEnv, access_X (fullPath d command) = false) →
        find_executable pathEnv access_X command = none) := by
  refine ⟨?_, ?_, ?_⟩
  · intro l d r hsplit hl hd
    rw [find_executable_eq_dirs, hsplit]
    exact find_in_dirs_first_match access_X command l d r hl hd
  · intro s h
    rw [find_executable_eq_dirs] at h
    exact find_in_dirs_access access_X command _ s h
  · intro h
    rw [find_executable_eq_dirs]
    exact find_in_dirs_none access_X command _ h

/-- C9 witness: with PATH holding directories a then b and the command x
executable in both, the resolver returns the candidate under a, the
earlier directory. -/
theorem c9_find_executable_order_witness :
    find_executable (some "/a:/b") (fun s => s == "/a/x" || s == "/b/x")
      "x" = some (fullPath "/a" "x") :=
  (c9_find_executable_order (some "/a:/b")
      (fun s => s == "/a/x" || s == "/b/x") "x").1 [] "/a" ["/b"]
    (by decide) (by decide) (by decide)

/-- C10: the pipeline branch of main reports the too-many-stages error
exactly when the line holds more than 31 pipe bytes, that is more than
MAX_PIPELINE_CMDS = 32 stages; the check happens before strtok_r and
before any tokenization or spawning, as the definition order of
pipeline_parse shows, and a line with exactly 32 stages (31 pipe bytes)
is never rejected by this check. -/
theorem c10_pipeline_stage_limit (s : String) :
    pipeline_parse s = PipelineParse.tooMany ↔ 31 < pipe_count s := by
  unfold pipeline_parse
  by_cases h : 32 < pipe_count s + 1
  · rw [if_pos h]
    exact ⟨fun _ => by omega, fun _ => rfl⟩
  · rw [if_neg h]
    have h2 : ¬ 31 < pipe_count s := by omega
    simp only [h2, iff_false]
    split
    · simp
    · split <;> simp
